import Mathlib

/-!
Verification of the schema bootstrapper of the YouTube KOL search system
(`scripts/init_database.py`).

The bootstrapper is a MySQL DDL script.  We shallowly embed the DDL it emits
as explicit Lean data (tables, columns, enum value sets, keys, foreign-key
rules, seed rows), and give the storage operations that MySQL performs
against that DDL — plain `INSERT` (rejected on a unique-key conflict),
`INSERT ... ON DUPLICATE KEY UPDATE`, `INSERT IGNORE`, and `DELETE` with
its `ON DELETE CASCADE` / `ON DELETE SET NULL` foreign-key effects — as
executable functions on a database state made of lists of rows.

Components of the system that have no code in the repository (the search
task orchestrator state machine and the credential pool quota ledger)
are modelled from the specification; their doc comments say so.
-/

namespace KolSearch

/-- A table row: an association list from column name to value.
`none` from `Row.get` stands for SQL `NULL` (absent column = NULL). -/
abbrev Row := List (String × String)

/-- Value of column `c` in row `r`; `none` is SQL NULL. -/
def Row.get (r : Row) (c : String) : Option String :=
  (List.find? (fun p => p.1 == c) r).map (fun p => p.2)

/-- Set column `c` of row `r` to NULL (as `ON DELETE SET NULL` does). -/
def Row.setNull (c : String) (r : Row) : Row :=
  List.filter (fun p => !(p.1 == c)) r

/-- Overwrite (or add) column `c` of row `r` with value `v`. -/
def Row.set (r : Row) (c v : String) : Row :=
  if List.any r (fun p => p.1 == c) then
    List.map (fun p => if p.1 == c then (c, v) else p) r
  else r ++ [(c, v)]

/-- A key clause of a `CREATE TABLE` statement. -/
inductive KeyDef where
  | primaryKey (cols : List String)
  | uniqueKey (cols : List String)
  | index (cols : List String)
  | fulltext (cols : List String)
  deriving DecidableEq, Repr

/-- A column of a `CREATE TABLE` statement; `enumVals` is the value list of
an `ENUM(...)` column, `none` for non-enum columns. -/
structure ColumnDef where
  name : String
  enumVals : Option (List String) := none
  deriving DecidableEq, Repr

/-- A table of the schema: name, columns, key clauses. -/
structure TableDef where
  name : String
  columns : List ColumnDef
  keys : List KeyDef
  deriving DecidableEq, Repr

/-- The column sets on which the table enforces uniqueness: its primary key
and its unique keys.  Plain `INDEX` and `FULLTEXT` clauses enforce nothing. -/
def TableDef.uniqueKeys (t : TableDef) : List (List String) :=
  t.keys.filterMap (fun k =>
    match k with
    | KeyDef.primaryKey cs => some cs
    | KeyDef.uniqueKey cs => some cs
    | KeyDef.index _ => none
    | KeyDef.fulltext _ => none)

/-- The `ENUM` value list of column `c` of table `t`, if `c` is an enum column. -/
def columnEnum (t : TableDef) (c : String) : Option (List String) :=
  (t.columns.find? (fun col => col.name == c)).bind (fun col => col.enumVals)

/-- `search_tasks` as created by `create_tables` (init_database.py, lines 38-61). -/
def search_tasks_def : TableDef :=
  { name := "search_tasks"
    columns := [
      { name := "id" }, { name := "task_id" }, { name := "keyword" },
      { name := "product_info" },
      { name := "status",
        enumVals := some ["pending", "running", "completed", "failed", "paused"] },
      { name := "total_channels" }, { name := "processed_channels" },
      { name := "is_incremental" }, { name := "parent_task_id" },
      { name := "new_channels_count" }, { name := "accelerated_mode" },
      { name := "error_message" }, { name := "created_at" },
      { name := "started_at" }, { name := "completed_at" }]
    keys := [
      KeyDef.primaryKey ["id"],
      KeyDef.uniqueKey ["task_id"],
      KeyDef.index ["keyword"], KeyDef.index ["status"],
      KeyDef.index ["created_at"], KeyDef.index ["parent_task_id"]] }

/-- `channels` as created by `create_tables` (init_database.py, lines 63-88). -/
def channels_def : TableDef :=
  { name := "channels"
    columns := [
      { name := "id" }, { name := "channel_id" }, { name := "channel_title" },
      { name := "channel_url" }, { name := "subscriber_count" },
      { name := "description" }, { name := "detected_language" },
      { name := "language_confidence" }, { name := "custom_url" },
      { name := "thumbnail_url" }, { name := "first_discovered_at" },
      { name := "last_seen_at" },
      { name := "status",
        enumVals := some ["active", "disappeared", "deleted", "private"] },
      { name := "created_at" }, { name := "updated_at" }]
    keys := [
      KeyDef.primaryKey ["id"],
      KeyDef.uniqueKey ["channel_id"],
      KeyDef.index ["channel_id"], KeyDef.index ["detected_language"],
      KeyDef.index ["subscriber_count"], KeyDef.index ["status"],
      KeyDef.index ["last_seen_at"],
      KeyDef.fulltext ["channel_title", "description"]] }

/-- `channel_video_stats` as created by `create_tables`
(init_database.py, lines 90-109).  Note: `(channel_id, task_id)` appears only
in a plain `INDEX idx_channel_task`, not in a `UNIQUE KEY`. -/
def channel_video_stats_def : TableDef :=
  { name := "channel_video_stats"
    columns := [
      { name := "id" }, { name := "channel_id" }, { name := "task_id" },
      { name := "avg_view_count" }, { name := "avg_like_count" },
      { name := "avg_comment_count" }, { name := "avg_engagement_rate" },
      { name := "has_outliers" }, { name := "outlier_videos" },
      { name := "recent_videos" }, { name := "video_languages" },
      { name := "created_at" }]
    keys := [
      KeyDef.primaryKey ["id"],
      KeyDef.index ["channel_id", "task_id"],
      KeyDef.index ["avg_engagement_rate"], KeyDef.index ["avg_view_count"]] }

/-- `ai_analysis` as created by `create_tables` (init_database.py, lines 111-135),
including `UNIQUE KEY uk_channel_task (channel_id, task_id)`. -/
def ai_analysis_def : TableDef :=
  { name := "ai_analysis"
    columns := [
      { name := "id" }, { name := "channel_id" }, { name := "task_id" },
      { name := "relevance_score" }, { name := "audience_match" },
      { name := "content_alignment" }, { name := "recommendation" },
      { name := "key_strengths" }, { name := "concerns" },
      { name := "analysis_detail" }, { name := "ai_provider" },
      { name := "analysis_status",
        enumVals := some ["pending", "processing", "completed", "failed"] },
      { name := "error_message" }, { name := "analyzed_at" },
      { name := "created_at" }]
    keys := [
      KeyDef.primaryKey ["id"],
      KeyDef.index ["channel_id", "task_id"],
      KeyDef.index ["relevance_score"], KeyDef.index ["analysis_status"],
      KeyDef.index ["ai_provider"],
      KeyDef.uniqueKey ["channel_id", "task_id"]] }

/-- `api_keys` as created by `create_tables` (init_database.py, lines 137-157). -/
def api_keys_def : TableDef :=
  { name := "api_keys"
    columns := [
      { name := "id" }, { name := "api_key" },
      { name := "api_type", enumVals := some ["youtube", "deepseek", "zhipu"] },
      { name := "display_name" }, { name := "daily_quota" },
      { name := "used_quota" }, { name := "last_reset_date" },
      { name := "is_active" }, { name := "priority" }, { name := "notes" },
      { name := "created_at" }, { name := "updated_at" }]
    keys := [
      KeyDef.primaryKey ["id"],
      KeyDef.index ["api_type", "is_active"],
      KeyDef.index ["used_quota", "daily_quota"], KeyDef.index ["priority"],
      KeyDef.uniqueKey ["api_key"]] }

/-- `product_config` as created by `create_tables` (init_database.py, lines 159-177).
Its only uniqueness constraint is the auto-increment primary key `id`. -/
def product_config_def : TableDef :=
  { name := "product_config"
    columns := [
      { name := "id" }, { name := "product_name" }, { name := "product_url" },
      { name := "product_description" }, { name := "core_features" },
      { name := "target_audience" }, { name := "keywords" },
      { name := "auto_scraped_content" }, { name := "last_scraped_at" },
      { name := "is_active" }, { name := "created_at" }, { name := "updated_at" }]
    keys := [
      KeyDef.primaryKey ["id"],
      KeyDef.index ["is_active"],
      KeyDef.fulltext ["product_description", "auto_scraped_content"]] }

/-- `schema_migrations` as created by `create_schema_version_table`
(init_database.py, lines 285-291): `version` is the primary key. -/
def schema_migrations_def : TableDef :=
  { name := "schema_migrations"
    columns := [
      { name := "version" }, { name := "description" }, { name := "applied_at" }]
    keys := [KeyDef.primaryKey ["version"]] }

/-! Storage semantics: what the MySQL engine does, against the DDL above,
for the statement forms the bootstrapper (and the system the schema is for)
issues. -/

/-- Two rows collide on the unique-key columns `cols`: every key column
has the same non-NULL value in both rows.  (MySQL unique keys admit any
number of NULLs, hence the `isSome` condition.) -/
def conflictsOn (cols : List String) (r1 r2 : Row) : Bool :=
  cols.all (fun c => (Row.get r1 c == Row.get r2 c) && (Row.get r1 c).isSome)

/-- Some existing row of `rows` collides with `r` on some unique key of `t`. -/
def hasConflict (t : TableDef) (rows : List Row) (r : Row) : Bool :=
  rows.any (fun r0 => (TableDef.uniqueKeys t).any (fun k => conflictsOn k r0 r))

/-- Plain `INSERT` into table `t`: rejected (`none`) when the new row
collides with an existing row on a primary or unique key. -/
def insertRow (t : TableDef) (rows : List Row) (r : Row) : Option (List Row) :=
  if hasConflict t rows r then none else some (rows ++ [r])

/-- `INSERT IGNORE` into table `t`: a unique-key conflict skips the row
instead of failing; existing rows are never modified. -/
def insertIgnore (t : TableDef) (rows : List Row) (r : Row) : List Row :=
  if hasConflict t rows r then rows else rows ++ [r]

/-- Prepend the auto-increment `id` MySQL assigns on insert. -/
def withAutoId (rows : List Row) (r : Row) : Row :=
  ("id", toString (rows.length + 1)) :: r

/-- `INSERT ... ON DUPLICATE KEY UPDATE`: if the new row (with its fresh
auto-increment id) collides with existing rows on some unique key, those
rows receive the update `upd` instead; otherwise the row is inserted. -/
def insertOnDupUpdate (t : TableDef) (rows : List Row) (r : Row)
    (upd : Row → Row) : List Row :=
  let r1 := withAutoId rows r
  if hasConflict t rows r1 then
    rows.map (fun r0 =>
      if (TableDef.uniqueKeys t).any (fun k => conflictsOn k r0 r1) then upd r0
      else r0)
  else rows ++ [r1]

/-- Table states reachable through the schema by plain `INSERT`s. -/
inductive Reachable (t : TableDef) : List Row → Prop where
  | empty : Reachable t []
  | insert {rows rows' : List Row} {r : Row} :
      Reachable t rows → insertRow t rows r = some rows' → Reachable t rows'

/-! Foreign keys, as installed by `add_foreign_keys`
(init_database.py, lines 191-242). -/

/-- The `ON DELETE` action of a foreign-key constraint. -/
inductive FKAction where
  | setNull
  | cascade
  deriving DecidableEq, Repr

/-- An `ALTER TABLE ... ADD CONSTRAINT ... FOREIGN KEY` statement. -/
structure FKDef where
  table : String
  cname : String
  column : String
  refTable : String
  refColumn : String
  onDelete : FKAction
  deriving DecidableEq, Repr

/-- The five constraints of `add_foreign_keys` (init_database.py, lines 196-231),
in statement order. -/
def foreignKeys : List FKDef := [
  { table := "search_tasks", cname := "fk_parent_task",
    column := "parent_task_id", refTable := "search_tasks",
    refColumn := "task_id", onDelete := FKAction.setNull },
  { table := "channel_video_stats", cname := "fk_stats_channel",
    column := "channel_id", refTable := "channels",
    refColumn := "channel_id", onDelete := FKAction.cascade },
  { table := "channel_video_stats", cname := "fk_stats_task",
    column := "task_id", refTable := "search_tasks",
    refColumn := "task_id", onDelete := FKAction.cascade },
  { table := "ai_analysis", cname := "fk_analysis_channel",
    column := "channel_id", refTable := "channels",
    refColumn := "channel_id", onDelete := FKAction.cascade },
  { table := "ai_analysis", cname := "fk_analysis_task",
    column := "task_id", refTable := "search_tasks",
    refColumn := "task_id", onDelete := FKAction.cascade }]

/-- The whole database: one row list per table of the schema. -/
structure DBState where
  search_tasks : List Row
  channels : List Row
  channel_video_stats : List Row
  ai_analysis : List Row
  api_keys : List Row
  product_config : List Row
  schema_migrations : List Row
  deriving DecidableEq

/-- The database with every table empty, as right after `create_tables`
runs on a fresh database. -/
def emptyDB : DBState :=
  { search_tasks := [], channels := [], channel_video_stats := [],
    ai_analysis := [], api_keys := [], product_config := [],
    schema_migrations := [] }

/-- Rows of the named table. -/
def DBState.getTable (s : DBState) : String → List Row
  | "search_tasks" => s.search_tasks
  | "channels" => s.channels
  | "channel_video_stats" => s.channel_video_stats
  | "ai_analysis" => s.ai_analysis
  | "api_keys" => s.api_keys
  | "product_config" => s.product_config
  | "schema_migrations" => s.schema_migrations
  | _ => []

/-- Replace the rows of the named table. -/
def DBState.setTable (s : DBState) (n : String) (rows : List Row) : DBState :=
  if n = "search_tasks" then { s with search_tasks := rows }
  else if n = "channels" then { s with channels := rows }
  else if n = "channel_video_stats" then { s with channel_video_stats := rows }
  else if n = "ai_analysis" then { s with ai_analysis := rows }
  else if n = "api_keys" then { s with api_keys := rows }
  else if n = "product_config" then { s with product_config := rows }
  else if n = "schema_migrations" then { s with schema_migrations := rows }
  else s

/-- Effect of one foreign key on a child table when a referenced row whose
key value is `v` is deleted: `CASCADE` deletes the referencing child rows,
`SET NULL` nulls their referencing column. -/
def applyFKOnDelete (fk : FKDef) (v : String) (rows : List Row) : List Row :=
  match fk.onDelete with
  | FKAction.cascade => rows.filter (fun r => !(Row.get r fk.column == some v))
  | FKAction.setNull =>
      rows.map (fun r =>
        if Row.get r fk.column == some v then Row.setNull fk.column r else r)

/-- `DELETE FROM tbl WHERE keyCol = v`, followed by the `ON DELETE` effects
of every installed foreign key that references `tbl(keyCol)`. -/
def deleteByKey (s : DBState) (tbl keyCol v : String) : DBState :=
  let s1 := s.setTable tbl
    ((s.getTable tbl).filter (fun r => !(Row.get r keyCol == some v)))
  foreignKeys.foldl (fun acc fk =>
    if fk.refTable == tbl && fk.refColumn == keyCol then
      acc.setTable fk.table (applyFKOnDelete fk v (acc.getTable fk.table))
    else acc) s1

/-! The bootstrap run: `seed_initial_data`, `create_schema_version_table`,
`add_foreign_keys` (init_database.py, lines 191-303), sequenced as `main`
does (lines 306-356).  `create_database` and `create_tables` are
`CREATE ... IF NOT EXISTS` statements: on the row level they preserve the
content of every existing table, so they are identities on `DBState`. -/

/-- The row of the seeding `INSERT INTO product_config (...)` of
`seed_initial_data` (init_database.py, lines 252-271): exactly the seven
listed columns.  (Columns filled by DDL defaults are left out of the row
model.) -/
def seedRow : Row := [
  ("product_name", "WMaster Cleanup"),
  ("product_url", "https://www.wmastercleanup.com/"),
  ("product_description", "All-in-One Windows Cleaner & Optimizer for cleaning junk files, freeing disk space, and improving PC performance"),
  ("core_features", "[\"Disk cleanup\", \"Duplicate file removal\", \"Application uninstaller\", \"Cache clearing\", \"Privacy protection\"]"),
  ("target_audience", "Windows users who want to optimize PC performance, free up disk space, and maintain system health"),
  ("keywords", "[\"PC cleanup\", \"Windows optimizer\", \"disk cleaner\", \"system speedup\", \"junk file removal\"]"),
  ("is_active", "1")]

/-- `seed_initial_data` (init_database.py, lines 245-277): one
`INSERT ... ON DUPLICATE KEY UPDATE updated_at = CURRENT_TIMESTAMP` into
`product_config`.  `now` is the value of `CURRENT_TIMESTAMP`. -/
def seed_initial_data (now : String) (rows : List Row) : List Row :=
  insertOnDupUpdate product_config_def rows seedRow
    (fun r => Row.set r "updated_at" now)

/-- One `(version, description)` row of the `INSERT IGNORE INTO
schema_migrations` statement; `applied_at` takes its
`DEFAULT CURRENT_TIMESTAMP`. -/
def migRow (v d now : String) : Row :=
  [("version", v), ("description", d), ("applied_at", now)]

/-- The four rows of the `INSERT IGNORE INTO schema_migrations` statement
(init_database.py, lines 293-299). -/
def migrationRows (now : String) : List Row := [
  migRow "1" "Initial schema" now,
  migRow "2" "Add incremental update support" now,
  migRow "3" "Add AI provider field" now,
  migRow "4" "Add language detection confidence" now]

/-- `create_schema_version_table` (init_database.py, lines 280-303):
`CREATE TABLE IF NOT EXISTS schema_migrations` (row-content preserving) and
one `INSERT IGNORE` of the four version rows. -/
def create_schema_version_table (now : String) (rows : List Row) : List Row :=
  (migrationRows now).foldl (fun acc r => insertIgnore schema_migrations_def acc r) rows

/-- Does the character list start with `pat`? -/
def startsWithPat : List Char → List Char → Bool
  | [], _ => true
  | _ :: _, [] => false
  | a :: as, b :: bs => (a == b) && startsWithPat as bs

/-- Does the character list contain `pat` as a contiguous run? -/
def hasInfixPat (pat : List Char) : List Char → Bool
  | [] => startsWithPat pat []
  | c :: cs => startsWithPat pat (c :: cs) || hasInfixPat pat cs

/-- Substring test, as the Python expression `"Duplicate" in str(e)`. -/
def hasSubstr (s pat : String) : Bool := hasInfixPat pat.data s.data

/-- What `add_foreign_keys` observably does while looping: the constraints
whose `ALTER TABLE` succeeded, and the error messages it logged as warnings. -/
structure FKRun where
  installed : List String
  warnings : List String
  deriving DecidableEq, Repr

/-- The `for constraint_sql in constraints: try ... except Error` loop of
`add_foreign_keys` (init_database.py, lines 233-241), over an arbitrary list
of constraints.  `execEnv c` is the outcome MySQL gives the `ALTER TABLE`
statement for constraint `c`: `none` on success, `some msg` for an `Error`
with message `msg`.  A caught error whose message contains `"Duplicate"` is
ignored; any other caught error is logged as a warning; `Except.error`
would model an exception escaping the loop. -/
def runConstraints (execEnv : String → Option String) :
    List FKDef → Except String FKRun
  | [] => Except.ok { installed := [], warnings := [] }
  | fk :: rest =>
    let step : Except String (List String × List String) :=
      match execEnv fk.cname with
      | none => Except.ok ([fk.cname], [])
      | some e =>
        if hasSubstr e "Duplicate" then Except.ok ([], [])
        else Except.ok ([], [e])
    match step with
    | Except.error e => Except.error e
    | Except.ok (i, w) =>
      match runConstraints execEnv rest with
      | Except.error e => Except.error e
      | Except.ok r =>
        Except.ok { installed := i ++ r.installed, warnings := w ++ r.warnings }

/-- `add_foreign_keys` (init_database.py, lines 191-242): the loop above over
the five installed constraints. -/
def add_foreign_keys (execEnv : String → Option String) : Except String FKRun :=
  runConstraints execEnv foreignKeys

/-- One full run of the bootstrap tool against database state `s` at time
`now`: `create_database` and `create_tables` with `IF NOT EXISTS`
(row-content identities), `add_foreign_keys` (DDL only — touches no rows),
then `seed_initial_data` and `create_schema_version_table`
(init_database.py, `main`, lines 306-356). -/
def bootstrapRun (now : String) (s : DBState) : DBState :=
  let s1 := { s with product_config := seed_initial_data now s.product_config }
  { s1 with schema_migrations := create_schema_version_table now s1.schema_migrations }

/-! Spec-modelled components: no orchestrator or credential-pool code exists
in the repository, only the schema that is built for them. -/

/-- Modelled from the spec: the status values of a `SearchTask`, the enum of
the `search_tasks.status` column (the Search Task Orchestrator that drives
them has no code under the repository sources). -/
inductive TaskStatus where
  | pending
  | running
  | completed
  | failed
  | paused
  deriving DecidableEq, Repr

/-- Modelled from the spec: the allowed Orchestrator status transitions —
`pending → running`, `running → completed`, `running → failed`,
`running → paused` (pause mid-crawl), `paused → running` (resume);
`completed` and `failed` are terminal. -/
def taskStep : TaskStatus → TaskStatus → Bool
  | TaskStatus.pending, TaskStatus.running => true
  | TaskStatus.running, TaskStatus.completed => true
  | TaskStatus.running, TaskStatus.failed => true
  | TaskStatus.running, TaskStatus.paused => true
  | TaskStatus.paused, TaskStatus.running => true
  | _, _ => false

/-- Modelled from the spec: a sequence of requested status transitions applied
by the Orchestrator; a request not allowed by the state machine is a no-op
that keeps the current status (the idempotent start of the spec). -/
def applyRequests (s : TaskStatus) (reqs : List TaskStatus) : TaskStatus :=
  reqs.foldl (fun cur req => if taskStep cur req then req else cur) s

/-- Modelled from the spec: the quota ledger of one `APIKey` of the Credential
Pool, over the `daily_quota` / `used_quota` / `is_active` columns of the
`api_keys` table (the pool itself has no code under the repository sources). -/
structure APIKeyState where
  daily_quota : Nat
  used_quota : Nat
  is_active : Bool
  deriving DecidableEq, Repr

/-- Modelled from the spec: `record_usage(key, units)` increments `used_quota`
by `units`; the call that earned the overage is not retroactively invalidated,
so its result (second component) is always accepted. -/
def record_usage (k : APIKeyState) (units : Nat) : APIKeyState × Bool :=
  ({ k with used_quota := k.used_quota + units }, true)

/-- Modelled from the spec: `acquire(provider)` only ever selects active keys
whose `used_quota < daily_quota`; a key failing this is exhausted for the day. -/
def eligibleForAcquire (k : APIKeyState) : Bool :=
  k.is_active && decide (k.used_quota < k.daily_quota)

/-! Concrete rows used by witnesses and counterexamples. -/

/-- A video-stats snapshot for channel `UC1` under task `T1`. -/
def cvsRow1 : Row :=
  [("id", "1"), ("channel_id", "UC1"), ("task_id", "T1"), ("recent_videos", "[]")]

/-- A second snapshot for the same `(UC1, T1)` pair, with a fresh id. -/
def cvsRow2 : Row :=
  [("id", "2"), ("channel_id", "UC1"), ("task_id", "T1"), ("recent_videos", "[]")]

/-- An AI-analysis row for the pair `(UC1, T1)`. -/
def aiRow1 : Row :=
  [("id", "1"), ("channel_id", "UC1"), ("task_id", "T1"), ("analysis_detail", "\x7b\x7d")]

/-- A second AI-analysis attempt for the same `(UC1, T1)` pair. -/
def aiRow2 : Row :=
  [("id", "2"), ("channel_id", "UC1"), ("task_id", "T1"), ("analysis_detail", "\x7b\x7d")]

/-- A channel row for `UC1`. -/
def chRow1 : Row :=
  [("id", "1"), ("channel_id", "UC1"), ("channel_title", "Chan One"),
   ("channel_url", "https://youtube.example/UC1")]

/-- A second channel row claiming the same `channel_id` `UC1`. -/
def chRow2 : Row :=
  [("id", "2"), ("channel_id", "UC1"), ("channel_title", "Chan One Again"),
   ("channel_url", "https://youtube.example/UC1-bis")]

/-- A pre-existing migration row for version 2 with its own description. -/
def oldMigrationRow : Row :=
  [("version", "2"), ("description", "hand-applied variant")]

/-- A child task row referencing parent task `T1`. -/
def childTaskRow : Row :=
  [("id", "2"), ("task_id", "T2"), ("keyword", "windows cleaner"),
   ("parent_task_id", "T1")]

/-- Does some row of the migration ledger carry version `v`? -/
def hasVersion (rows : List Row) (v : String) : Bool :=
  rows.any (fun r => Row.get r "version" == some v)

/-- How many rows of the migration ledger carry version `v`. -/
def versionCount (rows : List Row) (v : String) : Nat :=
  (rows.filter (fun r => Row.get r "version" == some v)).length

/-! General lemmas about the storage semantics. -/

theorem insertRow_eq_some {t : TableDef} {rows rows' : List Row} {r : Row}
    (h : insertRow t rows r = some rows') :
    hasConflict t rows r = false ∧ rows' = rows ++ [r] := by
  by_cases hc : hasConflict t rows r = true
  · simp [insertRow, hc] at h
  · rw [Bool.not_eq_true] at hc
    simp [insertRow, hc] at h
    exact ⟨hc, h.symm⟩

theorem hasConflict_false_forall {t : TableDef} {rows : List Row} {r : Row}
    (h : hasConflict t rows r = false) :
    ∀ r0 ∈ rows, ∀ k ∈ t.uniqueKeys, conflictsOn k r0 r = false := by
  intro r0 hr0 k hk
  unfold hasConflict at h
  rw [← Bool.not_eq_true, List.any_eq_true] at h
  by_cases hck : conflictsOn k r0 r = true
  · exact absurd ⟨r0, hr0, List.any_eq_true.mpr ⟨k, hk, hck⟩⟩ h
  · rwa [Bool.not_eq_true] at hck

/-- Every table state reachable by plain inserts is pairwise free of
unique-key collisions. -/
theorem reachable_pairwise (t : TableDef) :
    ∀ {rows : List Row}, Reachable t rows →
      List.Pairwise (fun r1 r2 => ∀ k ∈ t.uniqueKeys, conflictsOn k r1 r2 = false) rows := by
  intro rows h
  induction h with
  | empty => exact List.Pairwise.nil
  | insert _ hins ih =>
    obtain ⟨hc, rfl⟩ := insertRow_eq_some hins
    rw [List.pairwise_append]
    refine ⟨ih, List.pairwise_singleton _ _, ?_⟩
    intro a ha b hb
    rw [List.mem_singleton] at hb
    subst hb
    exact hasConflict_false_forall hc a ha

/-- A list pairwise free of double matches has at most one match. -/
theorem pairwise_filter_length_le_one {α : Type} (p : α → Bool) :
    ∀ l : List α, List.Pairwise (fun a b => ¬(p a = true ∧ p b = true)) l →
      (l.filter p).length ≤ 1 := by
  intro l h
  induction l with
  | nil => simp
  | cons a l ih =>
    rw [List.pairwise_cons] at h
    by_cases hp : p a = true
    · have hnil : l.filter p = [] := by
        rw [List.filter_eq_nil_iff]
        intro b hb hpb
        exact h.1 b hb ⟨hp, hpb⟩
      simp [List.filter_cons, hp, hnil]
    · rw [Bool.not_eq_true] at hp
      simpa [List.filter_cons, hp] using ih h.2

/-- C2: the `ai_analysis` table carries the unique key
`uk_channel_task (channel_id, task_id)`, so in every table state reachable
through the schema at most one AIAnalysis row exists per (channel, task)
pair, and inserting a second row for an already-present pair is rejected —
two racing schedulers converge on the one existing row. -/
theorem ai_analysis_unique_pair (rows : List Row)
    (h : Reachable ai_analysis_def rows) (c tid : String) :
    ((rows.filter (fun r =>
        (Row.get r "channel_id" == some c) && (Row.get r "task_id" == some tid))).length ≤ 1)
    ∧ (∀ r ∈ rows, Row.get r "channel_id" = some c → Row.get r "task_id" = some tid →
        ∀ rnew : Row, Row.get rnew "channel_id" = some c →
          Row.get rnew "task_id" = some tid →
          insertRow ai_analysis_def rows rnew = none) := by
  have hk : (["channel_id", "task_id"] : List String) ∈
      TableDef.uniqueKeys ai_analysis_def := by
    rw [show TableDef.uniqueKeys ai_analysis_def
        = [["id"], ["channel_id", "task_id"]] from rfl]
    simp
  constructor
  · refine pairwise_filter_length_le_one _ rows ?_
    refine (reachable_pairwise ai_analysis_def h).imp ?_
    intro r1 r2 hcf hpq
    obtain ⟨hp, hq⟩ := hpq
    rw [Bool.and_eq_true, beq_iff_eq, beq_iff_eq] at hp hq
    have := hcf _ hk
    simp [conflictsOn, hp.1, hp.2, hq.1, hq.2] at this
  · intro r hr hrc hrt rnew hnc hnt
    have hconf : hasConflict ai_analysis_def rows rnew = true := by
      rw [hasConflict, List.any_eq_true]
      refine ⟨r, hr, ?_⟩
      rw [List.any_eq_true]
      refine ⟨["channel_id", "task_id"], hk, ?_⟩
      simp [conflictsOn, hrc, hrt, hnc, hnt]
    simp [insertRow, hconf]

/-- C2 witness: from the reachable one-row state `[aiRow1]`, a second
analysis row for the same `(UC1, T1)` pair is rejected. -/
theorem ai_analysis_unique_pair_witness :
    (([aiRow1].filter (fun r =>
        (Row.get r "channel_id" == some "UC1") && (Row.get r "task_id" == some "T1"))).length ≤ 1)
    ∧ insertRow ai_analysis_def [aiRow1] aiRow2 = none := by
  have h := ai_analysis_unique_pair [aiRow1]
    (@Reachable.insert ai_analysis_def [] [aiRow1] aiRow1 Reachable.empty (by decide))
    "UC1" "T1"
  exact ⟨h.1, h.2 aiRow1 (by simp) (by decide) (by decide) aiRow2 (by decide) (by decide)⟩

/-- C5: `channels.channel_id` is declared `UNIQUE`, so in every reachable
table state at most one Channel row carries a given `channel_id`, and
inserting a second row with an already-present `channel_id` is rejected —
a re-encountered channel can only be an update of the existing row. -/
theorem channels_channel_id_unique (rows : List Row)
    (h : Reachable channels_def rows) (cid : String) :
    ((rows.filter (fun r => Row.get r "channel_id" == some cid)).length ≤ 1)
    ∧ (∀ r ∈ rows, Row.get r "channel_id" = some cid →
        ∀ rnew : Row, Row.get rnew "channel_id" = some cid →
          insertRow channels_def rows rnew = none) := by
  have hk : (["channel_id"] : List String) ∈ TableDef.uniqueKeys channels_def := by
    rw [show TableDef.uniqueKeys channels_def = [["id"], ["channel_id"]] from rfl]
    simp
  constructor
  · refine pairwise_filter_length_le_one _ rows ?_
    refine (reachable_pairwise channels_def h).imp ?_
    intro r1 r2 hcf hpq
    obtain ⟨hp, hq⟩ := hpq
    rw [beq_iff_eq] at hp hq
    have := hcf _ hk
    simp [conflictsOn, hp, hq] at this
  · intro r hr hrc rnew hnc
    have hconf : hasConflict channels_def rows rnew = true := by
      rw [hasConflict, List.any_eq_true]
      refine ⟨r, hr, ?_⟩
      rw [List.any_eq_true]
      refine ⟨["channel_id"], hk, ?_⟩
      simp [conflictsOn, hrc, hnc]
    simp [insertRow, hconf]

/-- C5 witness: from the reachable one-row state `[chRow1]`, a second
Channel row with `channel_id = UC1` is rejected. -/
theorem channels_channel_id_unique_witness :
    (([chRow1].filter (fun r => Row.get r "channel_id" == some "UC1")).length ≤ 1)
    ∧ insertRow channels_def [chRow1] chRow2 = none := by
  have h := channels_channel_id_unique [chRow1]
    (@Reachable.insert channels_def [] [chRow1] chRow1 Reachable.empty (by decide)) "UC1"
  exact ⟨h.1, h.2 chRow1 (by simp) (by decide) chRow2 (by decide)⟩

/-- C1 counterexample: `channel_video_stats` has no unique key on
`(channel_id, task_id)` — only the plain `INDEX idx_channel_task` — so a
second snapshot for the pair `(UC1, T1)` is accepted by the schema, and a
table state holding two distinct rows for the same pair is reachable. -/
theorem cvs_duplicate_pair_accepted :
    insertRow channel_video_stats_def [cvsRow1] cvsRow2 = some [cvsRow1, cvsRow2]
    ∧ Reachable channel_video_stats_def [cvsRow1, cvsRow2]
    ∧ Row.get cvsRow1 "channel_id" = some "UC1"
    ∧ Row.get cvsRow2 "channel_id" = some "UC1"
    ∧ Row.get cvsRow1 "task_id" = some "T1"
    ∧ Row.get cvsRow2 "task_id" = some "T1"
    ∧ cvsRow1 ≠ cvsRow2 := by
  refine ⟨by decide, ?_, by decide, by decide, by decide, by decide, by decide⟩
  exact @Reachable.insert channel_video_stats_def [cvsRow1] [cvsRow1, cvsRow2] cvsRow2
    (@Reachable.insert channel_video_stats_def [] [cvsRow1] cvsRow1
      Reachable.empty (by decide)) (by decide)

/-- C1 (amended): the only uniqueness the `channel_video_stats` schema
enforces is its auto-increment primary key `id`; `(channel_id, task_id)`
carries a plain non-unique index, so inserting a second snapshot for an
already-present (channel, task) pair succeeds whenever its `id` is fresh —
duplicate snapshots are not rejected at the storage layer. -/
theorem cvs_no_pair_uniqueness (rows : List Row) (r : Row)
    (h : ∀ r0 ∈ rows, conflictsOn ["id"] r0 r = false) :
    TableDef.uniqueKeys channel_video_stats_def = [["id"]]
    ∧ KeyDef.index ["channel_id", "task_id"] ∈ channel_video_stats_def.keys
    ∧ insertRow channel_video_stats_def rows r = some (rows ++ [r]) := by
  refine ⟨rfl, by decide, ?_⟩
  have hc : hasConflict channel_video_stats_def rows r = false := by
    rw [hasConflict, ← Bool.not_eq_true, List.any_eq_true]
    rintro ⟨r0, hr0, hany⟩
    rw [List.any_eq_true] at hany
    obtain ⟨k, hk, hck⟩ := hany
    rw [show TableDef.uniqueKeys channel_video_stats_def = [["id"]] from rfl,
      List.mem_singleton] at hk
    subst hk
    rw [h r0 hr0] at hck
    exact Bool.false_ne_true hck
  simp [insertRow, hc]

/-- C1 witness: `cvsRow2` has a fresh id relative to `[cvsRow1]`, and its
insert — a duplicate of the `(UC1, T1)` pair — succeeds. -/
theorem cvs_no_pair_uniqueness_witness :
    conflictsOn ["id"] cvsRow1 cvsRow2 = false
    ∧ insertRow channel_video_stats_def [cvsRow1] cvsRow2 = some ([cvsRow1] ++ [cvsRow2]) :=
  ⟨by decide, (cvs_no_pair_uniqueness [cvsRow1] cvsRow2 (by decide)).2.2⟩

/-- C6: the three status enums of the created schema hold exactly the value
sets the data model states — task status
pending/running/completed/failed/paused, channel status
active/disappeared/deleted/private, analysis status
pending/processing/completed/failed. -/
theorem schema_status_enums :
    columnEnum search_tasks_def "status"
      = some ["pending", "running", "completed", "failed", "paused"]
    ∧ columnEnum channels_def "status"
      = some ["active", "disappeared", "deleted", "private"]
    ∧ columnEnum ai_analysis_def "analysis_status"
      = some ["pending", "processing", "completed", "failed"] :=
  ⟨rfl, rfl, rfl⟩

/-- C3 (violated by the code): `product_config` has no unique key on any
seeded column, so the seeding `INSERT ... ON DUPLICATE KEY UPDATE` of
`seed_initial_data` never meets a duplicate key and inserts a fresh seed
row on every run: after a first full bootstrap run the table holds one seed
row, after a second it holds two — re-running is not idempotent on the seed
data, while the migration ledger does stay at its four rows. -/
theorem bootstrap_rerun_duplicates_seed :
    (bootstrapRun "2024-01-01 00:00:00" emptyDB).product_config.length = 1
    ∧ (bootstrapRun "2024-01-02 00:00:00"
        (bootstrapRun "2024-01-01 00:00:00" emptyDB)).product_config.length = 2
    ∧ ((bootstrapRun "2024-01-02 00:00:00"
        (bootstrapRun "2024-01-01 00:00:00" emptyDB)).product_config.map
          (fun r => Row.get r "product_name"))
      = [some "WMaster Cleanup", some "WMaster Cleanup"]
    ∧ TableDef.uniqueKeys product_config_def = [["id"]]
    ∧ (bootstrapRun "2024-01-02 00:00:00"
        (bootstrapRun "2024-01-01 00:00:00" emptyDB)).schema_migrations.length = 4 := by
  refine ⟨?_, ?_, ?_, rfl, ?_⟩ <;> decide

/-- Nulling one column leaves every other column of the row unchanged. -/
theorem setNull_get_other (r : Row) (c col : String) (h : ¬(col = c)) :
    Row.get (Row.setNull c r) col = Row.get r col := by
  induction r with
  | nil => rfl
  | cons hd tl ih =>
    by_cases hc : hd.1 == c
    · have h1 : (hd.1 == col) = false := by
        rw [beq_iff_eq] at hc
        subst hc
        rw [beq_eq_false_iff_ne]
        exact fun he => h he.symm
      simp [Row.setNull, Row.get, List.filter_cons, hc, List.find?, h1] at *
      exact ih
    · rw [Bool.not_eq_true] at hc
      by_cases h1 : hd.1 == col
      · simp [Row.setNull, Row.get, List.filter_cons, hc, List.find?, h1]
      · rw [Bool.not_eq_true] at h1
        simp [Row.setNull, Row.get, List.filter_cons, hc, List.find?, h1] at *
        exact ih

/-- Nulling a column indeed makes it NULL. -/
theorem setNull_get_self (r : Row) (c : String) :
    Row.get (Row.setNull c r) c = none := by
  induction r with
  | nil => rfl
  | cons hd tl ih =>
    rw [Row.setNull, List.filter_cons]
    by_cases hc : hd.1 == c
    · rw [show (!(hd.1 == c)) = false from by rw [hc]; rfl]
      simp only [Bool.false_eq_true, if_false]
      exact ih
    · rw [Bool.not_eq_true] at hc
      rw [show (!(hd.1 == c)) = true from by rw [hc]; rfl]
      simp only [if_true]
      simp only [Row.get, List.find?, hc]
      exact ih

/-- C4: under the installed foreign keys, deleting a `SearchTask` nulls
`parent_task_id` on the child tasks referencing it (leaving the other
columns of each child unchanged, by the two `setNull` conjuncts) and cascades only
to the stats/analysis rows of that task, while deleting a `Channel` deletes
exactly the `channel_video_stats` and `ai_analysis` rows referencing it and
leaves every other table untouched. -/
theorem fk_delete_effects (s : DBState) (p c : String) :
    ((deleteByKey s "search_tasks" "task_id" p).search_tasks
        = (s.search_tasks.filter (fun r => !(Row.get r "task_id" == some p))).map
            (fun r => if Row.get r "parent_task_id" == some p
              then Row.setNull "parent_task_id" r else r)
      ∧ (deleteByKey s "search_tasks" "task_id" p).channel_video_stats
        = s.channel_video_stats.filter (fun r => !(Row.get r "task_id" == some p))
      ∧ (deleteByKey s "search_tasks" "task_id" p).ai_analysis
        = s.ai_analysis.filter (fun r => !(Row.get r "task_id" == some p))
      ∧ (deleteByKey s "search_tasks" "task_id" p).channels = s.channels
      ∧ (deleteByKey s "search_tasks" "task_id" p).api_keys = s.api_keys
      ∧ (deleteByKey s "search_tasks" "task_id" p).product_config = s.product_config
      ∧ (deleteByKey s "search_tasks" "task_id" p).schema_migrations
        = s.schema_migrations)
    ∧ ((deleteByKey s "channels" "channel_id" c).channels
        = s.channels.filter (fun r => !(Row.get r "channel_id" == some c))
      ∧ (deleteByKey s "channels" "channel_id" c).channel_video_stats
        = s.channel_video_stats.filter (fun r => !(Row.get r "channel_id" == some c))
      ∧ (deleteByKey s "channels" "channel_id" c).ai_analysis
        = s.ai_analysis.filter (fun r => !(Row.get r "channel_id" == some c))
      ∧ (deleteByKey s "channels" "channel_id" c).search_tasks = s.search_tasks
      ∧ (deleteByKey s "channels" "channel_id" c).api_keys = s.api_keys
      ∧ (deleteByKey s "channels" "channel_id" c).product_config = s.product_config
      ∧ (deleteByKey s "channels" "channel_id" c).schema_migrations
        = s.schema_migrations)
    ∧ (∀ r : Row, ∀ col : String, ¬(col = "parent_task_id") →
        Row.get (Row.setNull "parent_task_id" r) col = Row.get r col)
    ∧ (∀ r : Row, Row.get (Row.setNull "parent_task_id" r) "parent_task_id" = none) := by
  refine ⟨⟨rfl, rfl, rfl, rfl, rfl, rfl, rfl⟩, ⟨rfl, rfl, rfl, rfl, rfl, rfl, rfl⟩,
    ?_, ?_⟩
  · exact fun r col h => setNull_get_other r "parent_task_id" col h
  · exact fun r => setNull_get_self r "parent_task_id"

/-- C4 witness: for the concrete child row `childTaskRow`, nulling
`parent_task_id` keeps `keyword` and clears the parent reference. -/
theorem fk_delete_effects_witness :
    ¬("keyword" = "parent_task_id")
    ∧ Row.get (Row.setNull "parent_task_id" childTaskRow) "keyword"
      = Row.get childTaskRow "keyword"
    ∧ Row.get (Row.setNull "parent_task_id" childTaskRow) "parent_task_id" = none :=
  ⟨by decide, (fk_delete_effects emptyDB "T1" "UC1").2.2.1 childTaskRow "keyword" (by decide),
    (fk_delete_effects emptyDB "T1" "UC1").2.2.2 childTaskRow⟩

/-- C7: the task lifecycle is exactly the state machine
`pending → running → {completed, failed}` with `running → paused` and
`paused → running`, and `completed` / `failed` are terminal — no sequence of
Orchestrator transition requests moves a task out of either. -/
theorem task_lifecycle_state_machine :
    (∀ s t : TaskStatus, taskStep s t = true ↔
      (s, t) ∈ ([(TaskStatus.pending, TaskStatus.running),
                 (TaskStatus.running, TaskStatus.completed),
                 (TaskStatus.running, TaskStatus.failed),
                 (TaskStatus.running, TaskStatus.paused),
                 (TaskStatus.paused, TaskStatus.running)] :
                List (TaskStatus × TaskStatus)))
    ∧ (∀ reqs : List TaskStatus,
        applyRequests TaskStatus.completed reqs = TaskStatus.completed)
    ∧ (∀ reqs : List TaskStatus,
        applyRequests TaskStatus.failed reqs = TaskStatus.failed) := by
  refine ⟨by intro s t; cases s <;> cases t <;> decide, ?_, ?_⟩
  · intro reqs
    induction reqs with
    | nil => rfl
    | cons a l ih =>
      have h : taskStep TaskStatus.completed a = false := by cases a <;> rfl
      rw [applyRequests, List.foldl_cons, h]
      simpa [applyRequests] using ih
  · intro reqs
    induction reqs with
    | nil => rfl
    | cons a l ih =>
      have h : taskStep TaskStatus.failed a = false := by cases a <;> rfl
      rw [applyRequests, List.foldl_cons, h]
      simpa [applyRequests] using ih

/-- C8: `record_usage` adds exactly `units` to `used_quota` and always
accepts the triggering call; once the result exceeds `daily_quota` the key
is no longer eligible for `acquire`.  Concretely, from
`{daily_quota = 100, used_quota = 95}` a 10-unit usage leaves
`used_quota = 105`, an exhausted key, and an accepted call. -/
theorem record_usage_overage (k : APIKeyState) (units : Nat) :
    ((record_usage k units).1.used_quota = k.used_quota + units
      ∧ (record_usage k units).1.daily_quota = k.daily_quota
      ∧ (record_usage k units).1.is_active = k.is_active
      ∧ (record_usage k units).2 = true
      ∧ (k.daily_quota < k.used_quota + units →
          eligibleForAcquire (record_usage k units).1 = false))
    ∧ ((record_usage ⟨100, 95, true⟩ 10).1.used_quota = 105
      ∧ eligibleForAcquire (record_usage ⟨100, 95, true⟩ 10).1 = false
      ∧ (record_usage ⟨100, 95, true⟩ 10).2 = true) := by
  refine ⟨⟨rfl, rfl, rfl, rfl, ?_⟩, by decide⟩
  intro h
  have hlt : ¬((record_usage k units).1.used_quota
      < (record_usage k units).1.daily_quota) := by
    rw [show (record_usage k units).1.used_quota = k.used_quota + units from rfl,
      show (record_usage k units).1.daily_quota = k.daily_quota from rfl]
    omega
  rw [eligibleForAcquire, decide_eq_false hlt, Bool.and_false]

/-- C8 witness: the overage scenario of the spec, at daily quota 100 and
used quota 95 with a 10-unit call. -/
theorem record_usage_overage_witness :
    100 < 95 + 10
    ∧ (record_usage ⟨100, 95, true⟩ 10).1.used_quota = 95 + 10
    ∧ eligibleForAcquire (record_usage ⟨100, 95, true⟩ 10).1 = false
    ∧ (record_usage ⟨100, 95, true⟩ 10).2 = true :=
  ⟨by decide, (record_usage_overage ⟨100, 95, true⟩ 10).1.1,
    (record_usage_overage ⟨100, 95, true⟩ 10).1.2.2.2.2 (by decide),
    (record_usage_overage ⟨100, 95, true⟩ 10).1.2.2.2.1⟩

/-- The constraint loop splits every outcome environment into installed
constraints and logged warnings, and never propagates an error. -/
theorem runConstraints_ok (execEnv : String → Option String) :
    ∀ l : List FKDef, runConstraints execEnv l
      = Except.ok
        { installed := l.filterMap (fun fk =>
            match execEnv fk.cname with
            | none => some fk.cname
            | some _ => none),
          warnings := l.filterMap (fun fk =>
            match execEnv fk.cname with
            | none => none
            | some e => if hasSubstr e "Duplicate" then none else some e) } := by
  intro l
  induction l with
  | nil => rfl
  | cons fk rest ih =>
    cases hx : execEnv fk.cname with
    | none => simp [runConstraints, hx, ih, List.filterMap_cons]
    | some e =>
      by_cases hd : hasSubstr e "Duplicate"
      · simp [runConstraints, hx, hd, ih, List.filterMap_cons]
      · rw [Bool.not_eq_true] at hd
        simp [runConstraints, hx, hd, ih, List.filterMap_cons]

/-- C9: for every outcome environment, `add_foreign_keys` returns normally —
errors whose message contains "Duplicate" vanish silently, every other error
only becomes a logged warning — so the bootstrap continues to completion
even when no constraint was installed; concretely, an environment failing
all five statements still yields a normal return with nothing installed. -/
theorem add_foreign_keys_never_raises (execEnv : String → Option String) :
    (add_foreign_keys execEnv
      = Except.ok
        { installed := foreignKeys.filterMap (fun fk =>
            match execEnv fk.cname with
            | none => some fk.cname
            | some _ => none),
          warnings := foreignKeys.filterMap (fun fk =>
            match execEnv fk.cname with
            | none => none
            | some e => if hasSubstr e "Duplicate" then none else some e) })
    ∧ add_foreign_keys (fun _ => some "Cannot add constraint: table error")
      = Except.ok
        { installed := [],
          warnings := List.replicate 5 "Cannot add constraint: table error" }
    ∧ add_foreign_keys (fun _ => some "Duplicate key name")
      = Except.ok { installed := [], warnings := [] } :=
  ⟨runConstraints_ok execEnv foreignKeys, by rfl, by rfl⟩

/-- C9 witness: with every `ALTER TABLE` succeeding, all five constraints
are installed, no warning is logged, and nothing is raised. -/
theorem add_foreign_keys_never_raises_witness :
    add_foreign_keys (fun _ => none)
      = Except.ok
        { installed := ["fk_parent_task", "fk_stats_channel", "fk_stats_task",
            "fk_analysis_channel", "fk_analysis_task"],
          warnings := [] } :=
  ((add_foreign_keys_never_raises (fun _ => none)).1).trans (by rfl)

/-! Lemmas about the migration ledger (`schema_migrations` and
`INSERT IGNORE`). -/

theorem conflictsOn_version (r0 r : Row) (v : String)
    (h : Row.get r "version" = some v) :
    conflictsOn ["version"] r0 r = (Row.get r0 "version" == some v) := by
  cases hx : Row.get r0 "version" with
  | none => simp [conflictsOn, hx, h]
  | some w => simp [conflictsOn, hx, h]

theorem insertIgnore_version (rows : List Row) (r : Row) (v : String)
    (h : Row.get r "version" = some v) :
    insertIgnore schema_migrations_def rows r
      = if hasVersion rows v then rows else rows ++ [r] := by
  have hfun : (fun r0 => List.any (TableDef.uniqueKeys schema_migrations_def)
        (fun k => conflictsOn k r0 r))
      = (fun r0 => Row.get r0 "version" == some v) := by
    funext r0
    rw [show TableDef.uniqueKeys schema_migrations_def = [["version"]] from rfl]
    simp only [List.any_cons, List.any_nil, Bool.or_false]
    exact conflictsOn_version r0 r v h
  simp only [insertIgnore, hasConflict, hfun, hasVersion]

theorem versionCount_append (rows : List Row) (r : Row) (v : String) :
    versionCount (rows ++ [r]) v
      = versionCount rows v + (if Row.get r "version" == some v then 1 else 0) := by
  by_cases hx : (Row.get r "version" == some v) = true
  · simp [versionCount, List.filter_append, List.filter_cons, hx]
  · rw [Bool.not_eq_true] at hx
    simp [versionCount, List.filter_append, List.filter_cons, hx]

theorem hasVersion_iff_count_pos (rows : List Row) (v : String) :
    hasVersion rows v = true ↔ 0 < versionCount rows v := by
  rw [hasVersion, List.any_eq_true, versionCount, List.length_pos]
  constructor
  · rintro ⟨r, hr, hp⟩ hnil
    rw [List.filter_eq_nil_iff] at hnil
    exact hnil r hr hp
  · intro hne
    obtain ⟨x, hx⟩ := List.exists_mem_of_ne_nil _ hne
    rw [List.mem_filter] at hx
    exact ⟨x, hx.1, hx.2⟩

theorem versionCount_le_one_of_pairwise (rows : List Row)
    (h : List.Pairwise (fun r1 r2 => conflictsOn ["version"] r1 r2 = false) rows)
    (v : String) : versionCount rows v ≤ 1 := by
  refine pairwise_filter_length_le_one _ rows (h.imp ?_)
  intro r1 r2 hcf hpq
  obtain ⟨hp, hq⟩ := hpq
  rw [beq_iff_eq] at hq
  rw [conflictsOn_version r1 r2 v hq, hp] at hcf
  exact Bool.true_eq_false.mp hcf

theorem insertIgnore_mem {t : TableDef} {rows : List Row} {r x : Row}
    (h : x ∈ rows) : x ∈ insertIgnore t rows r := by
  simp only [insertIgnore]
  split
  · exact h
  · exact List.mem_append_left _ h

theorem insertIgnore_count_other (rows : List Row) (r : Row) (v w : String)
    (hne : ¬(v = w)) (h : Row.get r "version" = some w) :
    versionCount (insertIgnore schema_migrations_def rows r) v
      = versionCount rows v := by
  rw [insertIgnore_version rows r w h]
  by_cases hv : hasVersion rows w = true
  · rw [if_pos hv]
  · rw [Bool.not_eq_true] at hv
    rw [if_neg (by rw [hv]; exact Bool.false_ne_true)]
    rw [versionCount_append, h]
    have : (some w == some v) = false := by
      rw [beq_eq_false_iff_ne]
      intro he
      exact hne (Option.some_injective _ he).symm
    simp [this]

theorem insertIgnore_count_self (rows : List Row) (r : Row) (w : String)
    (h : Row.get r "version" = some w) (hle : versionCount rows w ≤ 1) :
    versionCount (insertIgnore schema_migrations_def rows r) w = 1 := by
  rw [insertIgnore_version rows r w h]
  by_cases hv : hasVersion rows w = true
  · rw [if_pos hv]
    have := (hasVersion_iff_count_pos rows w).mp hv
    omega
  · rw [Bool.not_eq_true] at hv
    rw [if_neg (by rw [hv]; exact Bool.false_ne_true)]
    have h0 : versionCount rows w = 0 := by
      by_contra hc
      exact Bool.false_ne_true
        (hv ▸ (hasVersion_iff_count_pos rows w).mpr (Nat.pos_of_ne_zero hc))
    rw [versionCount_append, h, h0]
    simp

theorem insertIgnore_hasVersion_mono (rows : List Row) (r : Row) (v w : String)
    (h : Row.get r "version" = some w) (hv : hasVersion rows v = true) :
    hasVersion (insertIgnore schema_migrations_def rows r) v = true := by
  rw [insertIgnore_version rows r w h]
  split
  · exact hv
  · rw [hasVersion, List.any_append]
    rw [hasVersion] at hv
    simp [hv]

theorem insertIgnore_hasVersion_self (rows : List Row) (r : Row) (w : String)
    (h : Row.get r "version" = some w) :
    hasVersion (insertIgnore schema_migrations_def rows r) w = true := by
  rw [insertIgnore_version rows r w h]
  by_cases hv : hasVersion rows w = true
  · rw [if_pos hv]; exact hv
  · rw [Bool.not_eq_true] at hv
    rw [if_neg (by rw [hv]; exact Bool.false_ne_true)]
    rw [hasVersion, List.any_append, List.any_cons, List.any_nil, h]
    simp

theorem insertIgnore_of_hasVersion (rows : List Row) (r : Row) (w : String)
    (h : Row.get r "version" = some w) (hv : hasVersion rows w = true) :
    insertIgnore schema_migrations_def rows r = rows := by
  rw [insertIgnore_version rows r w h, if_pos hv]

/-- Summary of one `INSERT IGNORE` step of the ledger seeding: the seeded
version ends up present exactly once, other version counts are untouched,
the at-most-one invariant is kept, and presence is preserved. -/
theorem insertIgnore_step (rows : List Row) (w d n : String)
    (hb : ∀ v, versionCount rows v ≤ 1) :
    (∀ v, versionCount (insertIgnore schema_migrations_def rows (migRow w d n)) v
        = if v = w then 1 else versionCount rows v)
    ∧ (∀ v, versionCount (insertIgnore schema_migrations_def rows (migRow w d n)) v ≤ 1)
    ∧ (∀ v, (v = w ∨ hasVersion rows v = true) →
        hasVersion (insertIgnore schema_migrations_def rows (migRow w d n)) v = true) := by
  have hg : Row.get (migRow w d n) "version" = some w := rfl
  have hc : ∀ v, versionCount (insertIgnore schema_migrations_def rows (migRow w d n)) v
      = if v = w then 1 else versionCount rows v := by
    intro v
    by_cases hv : v = w
    · subst hv
      rw [if_pos rfl]
      exact insertIgnore_count_self rows _ v hg (hb v)
    · rw [if_neg hv]
      exact insertIgnore_count_other rows _ v w hv hg
  refine ⟨hc, ?_, ?_⟩
  · intro v
    rw [hc v]
    by_cases hv : v = w
    · rw [if_pos hv]
    · rw [if_neg hv]; exact hb v
  · intro v hv
    rcases hv with hv | hv
    · subst hv
      exact insertIgnore_hasVersion_self rows _ v hg
    · exact insertIgnore_hasVersion_mono rows _ v w hg hv

/-- After one `create_schema_version_table` run on a ledger where every
version appears at most once: versions 1-4 each appear exactly once, all
four are present, and every pre-existing row is still there verbatim. -/
theorem ledger_after_run (rows : List Row) (n : String)
    (hb : ∀ v, versionCount rows v ≤ 1) :
    (∀ v ∈ (["1", "2", "3", "4"] : List String),
      versionCount (create_schema_version_table n rows) v = 1)
    ∧ (∀ v ∈ (["1", "2", "3", "4"] : List String),
      hasVersion (create_schema_version_table n rows) v = true)
    ∧ (∀ r ∈ rows, r ∈ create_schema_version_table n rows) := by
  have hrun : create_schema_version_table n rows
      = insertIgnore schema_migrations_def
          (insertIgnore schema_migrations_def
            (insertIgnore schema_migrations_def
              (insertIgnore schema_migrations_def rows
                (migRow "1" "Initial schema" n))
              (migRow "2" "Add incremental update support" n))
            (migRow "3" "Add AI provider field" n))
          (migRow "4" "Add language detection confidence" n) := rfl
  obtain ⟨s1c, s1b, s1h⟩ := insertIgnore_step rows "1" "Initial schema" n hb
  obtain ⟨s2c, s2b, s2h⟩ :=
    insertIgnore_step _ "2" "Add incremental update support" n s1b
  obtain ⟨s3c, s3b, s3h⟩ := insertIgnore_step _ "3" "Add AI provider field" n s2b
  obtain ⟨s4c, s4b, s4h⟩ :=
    insertIgnore_step _ "4" "Add language detection confidence" n s3b
  refine ⟨?_, ?_, ?_⟩
  · intro v hv
    rw [hrun, s4c, s3c, s2c, s1c]
    fin_cases hv <;> rfl
  · intro v hv
    rw [hrun]
    fin_cases hv
    · exact s4h "1" (Or.inr (s3h "1" (Or.inr (s2h "1" (Or.inr (s1h "1" (Or.inl rfl)))))))
    · exact s4h "2" (Or.inr (s3h "2" (Or.inr (s2h "2" (Or.inl rfl)))))
    · exact s4h "3" (Or.inr (s3h "3" (Or.inl rfl)))
    · exact s4h "4" (Or.inl rfl)
  · intro r hr
    rw [hrun]
    exact insertIgnore_mem (insertIgnore_mem (insertIgnore_mem (insertIgnore_mem hr)))

/-- A run on a ledger already holding versions 1-4 changes nothing. -/
theorem ledger_run_fixed (rows : List Row) (n : String)
    (hv : ∀ v ∈ (["1", "2", "3", "4"] : List String), hasVersion rows v = true) :
    create_schema_version_table n rows = rows := by
  have hrun : create_schema_version_table n rows
      = insertIgnore schema_migrations_def
          (insertIgnore schema_migrations_def
            (insertIgnore schema_migrations_def
              (insertIgnore schema_migrations_def rows
                (migRow "1" "Initial schema" n))
              (migRow "2" "Add incremental update support" n))
            (migRow "3" "Add AI provider field" n))
          (migRow "4" "Add language detection confidence" n) := rfl
  rw [hrun,
    insertIgnore_of_hasVersion rows (migRow "1" "Initial schema" n) "1"
      rfl (hv "1" (by decide)),
    insertIgnore_of_hasVersion rows (migRow "2" "Add incremental update support" n) "2"
      rfl (hv "2" (by decide)),
    insertIgnore_of_hasVersion rows (migRow "3" "Add AI provider field" n) "3"
      rfl (hv "3" (by decide)),
    insertIgnore_of_hasVersion rows (migRow "4" "Add language detection confidence" n) "4"
      rfl (hv "4" (by decide))]

/-- C10: `version` is the primary key of `schema_migrations` and the seeding
uses `INSERT IGNORE`, so on any ledger satisfying the version-uniqueness
invariant a run leaves versions 1-4 present exactly once, keeps every
pre-existing row (and thus its description) verbatim, and a second run
changes nothing at all. -/
theorem schema_migrations_ledger_idempotent (rows : List Row) (now now2 : String)
    (h : List.Pairwise (fun r1 r2 => conflictsOn ["version"] r1 r2 = false) rows) :
    TableDef.uniqueKeys schema_migrations_def = [["version"]]
    ∧ (∀ v ∈ (["1", "2", "3", "4"] : List String),
        versionCount (create_schema_version_table now rows) v = 1)
    ∧ (∀ r ∈ rows, r ∈ create_schema_version_table now rows)
    ∧ create_schema_version_table now2 (create_schema_version_table now rows)
      = create_schema_version_table now rows := by
  have hb := versionCount_le_one_of_pairwise rows h
  obtain ⟨hc, hh, hm⟩ := ledger_after_run rows now hb
  exact ⟨rfl, hc, hm, ledger_run_fixed _ now2 hh⟩

/-- C10 witness: starting from a ledger already holding a version-2 row
with its own description, one run leaves versions 1 and 2 present exactly
once, keeps the old row verbatim, and a second run changes nothing. -/
theorem schema_migrations_ledger_idempotent_witness :
    versionCount (create_schema_version_table "2024-01-01" [oldMigrationRow]) "2" = 1
    ∧ versionCount (create_schema_version_table "2024-01-01" [oldMigrationRow]) "1" = 1
    ∧ oldMigrationRow ∈ create_schema_version_table "2024-01-01" [oldMigrationRow]
    ∧ create_schema_version_table "2024-01-02"
        (create_schema_version_table "2024-01-01" [oldMigrationRow])
      = create_schema_version_table "2024-01-01" [oldMigrationRow] := by
  have h := schema_migrations_ledger_idempotent [oldMigrationRow]
    "2024-01-01" "2024-01-02" (List.pairwise_singleton _ _)
  exact ⟨h.2.1 "2" (by decide), h.2.1 "1" (by decide),
    h.2.2.1 oldMigrationRow (by simp), h.2.2.2⟩

end KolSearch
